import Mathlib

/-!
Shallow embedding of the snmalloc-rs build-configuration resolver
(snmalloc-sys/build.rs) and of the allocator front-end (src/lib.rs),
with theorems settling the specification claims about them.

Environment-variable state is modelled as a lookup function
`Env := String → Option String`; cargo `cfg!` feature flags are modelled
as the record `CargoFeatures`; host-side `cfg!(windows) / cfg!(unix) /
cfg!(target_os = ...)` checks are modelled as the record `HostCfg`.
Process aborts (`expect` / fatal aborts) are modelled with `Except String`.
-/

/-- Substring occurrence test on char lists, mirroring Rust `str::contains`. -/
def infixAt (pat : List Char) : List Char → Bool
  | [] => pat.isEmpty
  | c :: rest => List.isPrefixOf pat (c :: rest) || infixAt pat rest

/-- Rust `str::contains`: does `s` contain `pat` as a substring. -/
def strContains (s pat : String) : Bool := infixAt pat.data s.data

/-- ASCII lower-casing of one character, mirroring Rust `str::to_lowercase`
on the ASCII strings the build script compares. -/
def lowerChar (c : Char) : Char :=
  if 65 ≤ c.toNat ∧ c.toNat ≤ 90 then Char.ofNat (c.toNat + 32) else c

/-- ASCII lower-casing of a string. -/
def strLower (s : String) : String := String.mk (s.data.map lowerChar)

/-- The process environment, as read through `std::env::var`. -/
def Env : Type := String → Option String

/-- `enum Compiler` from build.rs. -/
inductive Compiler
  | clang
  | gcc
  | msvc
  | unknown
deriving DecidableEq, Repr

/-- Host-side compile-time configuration of the build script itself:
`cfg!(windows)`, `cfg!(unix)` and the host `cfg!(target_os = ...)`. -/
structure HostCfg where
  windows : Bool
  unix : Bool
  os : String
deriving DecidableEq, Repr

/-- Cargo feature flags read through `cfg!(feature = ...)` in build.rs. -/
structure CargoFeatures where
  debug : Bool
  usecxx17 : Bool
  check : Bool
  native_cpu : Bool
  qemu : Bool
  wait_on_address : Bool
  lto : Bool
  notls : Bool
  win8compat : Bool
  stats : Bool
  android_lld : Bool
  local_dynamic_tls : Bool
  libc_api : Bool
  tracing : Bool
  fuzzing : Bool
  vendored_stl : Bool
  check_loads : Bool
  pageid : Bool
  gwp_asan : Bool
deriving DecidableEq, Repr

/-- `struct BuildFeatures` from build.rs. -/
structure BuildFeatures where
  native_cpu : Bool
  qemu : Bool
  wait_on_address : Bool
  lto : Bool
  notls : Bool
  win8compat : Bool
  stats : Bool
  android_lld : Bool
  local_dynamic_tls : Bool
  libc_api : Bool
  tracing : Bool
  fuzzing : Bool
  vendored_stl : Bool
  check_loads : Bool
  pageid : Bool
  gwp_asan : Bool
deriving DecidableEq, Repr

/-- `BuildFeatures::new`: each field reads its cargo feature flag. -/
def BuildFeatures.new (cf : CargoFeatures) : BuildFeatures where
  native_cpu := cf.native_cpu
  qemu := cf.qemu
  wait_on_address := cf.wait_on_address
  lto := cf.lto
  notls := cf.notls
  win8compat := cf.win8compat
  stats := cf.stats
  android_lld := cf.android_lld
  local_dynamic_tls := cf.local_dynamic_tls
  libc_api := cf.libc_api
  tracing := cf.tracing
  fuzzing := cf.fuzzing
  vendored_stl := cf.vendored_stl
  check_loads := cf.check_loads
  pageid := cf.pageid
  gwp_asan := cf.gwp_asan

/-- `struct BuildConfig` from build.rs (without the backend builder handle,
which is modelled separately as the emitted call sequence). -/
structure BuildConfig where
  debug : Bool
  optim_level : String
  target_os : String
  target_env : String
  target_family : String
  target : String
  out_dir : String
  build_type : String
  msystem : Option String
  cmake_cxx_standard : String
  target_lib : String
  features : BuildFeatures
  compiler : Compiler
deriving DecidableEq, Repr

def BuildConfig.is_msvc (c : BuildConfig) : Bool := c.target_env = "msvc"

def BuildConfig.is_gnu (c : BuildConfig) : Bool := c.target_env = "gnu"

def BuildConfig.is_windows (c : BuildConfig) : Bool := c.target_os = "windows"

def BuildConfig.is_linux (c : BuildConfig) : Bool := c.target_os = "linux"

def BuildConfig.is_unix (c : BuildConfig) : Bool := c.target_family = "unix"

def BuildConfig.is_clang_msys (c : BuildConfig) : Bool :=
  match c.msystem with
  | some s => strContains s "CLANG"
  | none => false

def BuildConfig.is_ucrt64 (c : BuildConfig) : Bool := c.msystem = some "UCRT64"

/-- Step 1 of `detect_compiler`: the MSYSTEM subsystem marker. -/
def detectFromMsystem : Option String → Option Compiler
  | some "CLANG64" => some .clang
  | some "CLANGARM64" => some .clang
  | some "MINGW64" => some .gcc
  | some "UCRT64" => some .gcc
  | _ => none

/-- Step 2 of `detect_compiler`: the `CARGO_CFG_TARGET_ENV` variable,
re-read from the process environment at detection time. -/
def detectFromTargetEnv (env : Env) : Option Compiler :=
  match env "CARGO_CFG_TARGET_ENV" with
  | some e => if e = "msvc" then some .msvc else if e = "gnu" then some .gcc else none
  | none => none

/-- Step 3 of `detect_compiler`: the `CC` override, lower-cased then
searched for the substrings "clang" and "gcc". -/
def detectFromCC (env : Env) : Option Compiler :=
  match env "CC" with
  | some cc0 =>
    let cc := strLower cc0
    if strContains cc "clang" then some .clang
    else if strContains cc "gcc" then some .gcc
    else none
  | none => none

/-- Step 4 of `detect_compiler`: the platform default. -/
def detectDefault (target : String) (host : HostCfg) : Compiler :=
  if strContains target "msvc" then .msvc
  else if host.windows then .gcc
  else if host.unix then .clang
  else .unknown

/-- `BuildConfig::detect_compiler`, as the source's early-return chain. -/
def BuildConfig.detect_compiler (msystem : Option String) (target : String)
    (env : Env) (host : HostCfg) : Compiler :=
  match detectFromMsystem msystem with
  | some c => c
  | none =>
    match detectFromTargetEnv env with
    | some c => c
    | none =>
      match detectFromCC env with
      | some c => c
      | none => detectDefault target host

/-- The two build backends: `cc::Build` (cargo feature `build_cc` on) and
`cmake::Config` (feature off). -/
inductive Backend
  | build_cc
  | cmake
deriving DecidableEq, Repr

/-- One capability-interface call recorded against the active builder.
`define k v` is the trait `define` (value `none` is the cc-only
presence-style `define(k, None)`); `compilerDefine` is the trait
`compiler_define`; `flag` is `flag_if_supported`; `linkArg` is a
`cargo:rustc-link-arg` print issued during rule application. -/
inductive BCall
  | define (key : String) (val : Option String)
  | compilerDefine (key : String) (val : String)
  | flag (f : String)
  | linkArg (a : String)
deriving DecidableEq, Repr

/-- `BuildConfig::get_cpp_flags`. -/
def get_cpp_flags (cf : CargoFeatures) : List String :=
  if cf.usecxx17 then ["-std=c++17", "/std:c++17"] else ["-std=c++20", "/std:c++20"]

/-- Opening segment of `configure_platform`: optimisation, frame-pointer
and C++ standard flags. -/
def baseFlagCalls (cf : CargoFeatures) (c : BuildConfig) : List BCall :=
  [.flag c.optim_level, .flag "-fomit-frame-pointer"] ++ (get_cpp_flags cf).map .flag

/-- `configure_platform` native-cpu segment; the `-march=native` flag is
emitted only under the `build_cc` backend. -/
def nativeCpuCalls (b : Backend) (c : BuildConfig) : List BCall :=
  if c.features.native_cpu then
    [.define "SNMALLOC_OPTIMISE_FOR_CURRENT_MACHINE" (some "ON")]
      ++ (if b = .build_cc then [.flag "-march=native"] else [])
  else []

/-- `configure_platform` GCC-LTO segment (fat LTO objects, cc backend only). -/
def ltoGccCalls (b : Backend) (c : BuildConfig) : List BCall :=
  if c.features.lto = true ∧ c.compiler = .gcc ∧ c.is_msvc = false then
    if b = .build_cc then [.flag "-ffat-lto-objects"] else []
  else []

/-- The Windows-version define pair: 0x0603 under `win8compat`, 0x0A00
otherwise. The source emits this block twice verbatim (once for all of
Windows, once again in the non-MSVC branch). -/
def winVersionCalls (c : BuildConfig) : List BCall :=
  if c.features.win8compat then
    [.compilerDefine "WINVER" "0x0603", .compilerDefine "_WIN32_WINNT" "0x0603"]
  else
    [.compilerDefine "WINVER" "0x0A00", .compilerDefine "_WIN32_WINNT" "0x0A00"]

def msvcFlagList : List String :=
  ["/nologo", "/W4", "/WX", "/wd4127", "/wd4324", "/wd4201",
   "/Ob2", "/EHsc", "/Gd", "/TP", "/Gm-", "/GS",
   "/fp:precise", "/Zc:wchar_t", "/Zc:forScope", "/Zc:inline"]

/-- MSVC branch of the Windows axis in `configure_platform`. -/
def msvcCalls (b : Backend) (c : BuildConfig) : List BCall :=
  msvcFlagList.map .flag
    ++ (if c.debug = false ∧ b = .build_cc then [.define "NDEBUG" none] else [])
    ++ (if c.features.lto then
          [.flag "/GL", .define "CMAKE_INTERPROCEDURAL_OPTIMIZATION" (some "TRUE"),
           .define "SNMALLOC_IPO" (some "ON"), .linkArg "/LTCG"]
        else [])
    ++ [.define "CMAKE_CXX_FLAGS_RELEASE" (some "/O2 /Ob2 /DNDEBUG /EHsc"),
        .define "CMAKE_C_FLAGS_RELEASE" (some "/O2 /Ob2 /DNDEBUG /EHsc")]

def clang64Defines : List (String × String) :=
  [("CMAKE_CXX_COMPILER", "clang++"),
   ("CMAKE_C_COMPILER", "clang"),
   ("CMAKE_CXX_FLAGS", "-fuse-ld=lld -stdlib=libc++ -mcx16 -Wno-error=unknown-pragmas -Qunused-arguments"),
   ("CMAKE_C_FLAGS", "-fuse-ld=lld -Wno-error=unknown-pragmas -Qunused-arguments"),
   ("CMAKE_EXE_LINKER_FLAGS", "-fuse-ld=lld -stdlib=libc++"),
   ("CMAKE_SHARED_LINKER_FLAGS", "-fuse-ld=lld -stdlib=libc++")]

def ucrt64Defines : List (String × String) :=
  [("CMAKE_CXX_FLAGS", "-fuse-ld=lld -Wno-error=unknown-pragmas"),
   ("CMAKE_SYSTEM_NAME", "Windows"),
   ("CMAKE_C_FLAGS", "-fuse-ld=lld -Wno-error=unknown-pragmas"),
   ("CMAKE_EXE_LINKER_FLAGS", "-fuse-ld=lld"),
   ("CMAKE_SHARED_LINKER_FLAGS", "-fuse-ld=lld")]

/-- Subsystem-specific toolchain redirection inside the non-MSVC Windows
branch, keyed on the MSYSTEM marker; unknown markers fall through. -/
def msystemCalls (c : BuildConfig) : List BCall :=
  match c.msystem with
  | none => []
  | some ms =>
    if ms = "CLANG64" ∨ ms = "CLANGARM64" then
      clang64Defines.map (fun kv => .define kv.1 (some kv.2))
        ++ (if c.features.lto then [.flag "-flto=thin"] else [])
    else if ms = "UCRT64" ∨ ms = "MINGW64" then
      ucrt64Defines.map (fun kv => .define kv.1 (some kv.2))
    else []

/-- Windows branch of the OS axis in `configure_platform`. -/
def windowsCalls (b : Backend) (c : BuildConfig) : List BCall :=
  winVersionCalls c
    ++ (if c.is_msvc then msvcCalls b c
        else
          [.flag "-mcx16", .flag "-fno-exceptions", .flag "-fno-rtti", .flag "-pthread"]
            ++ winVersionCalls c
            ++ msystemCalls c)

/-- Unix branch of the OS axis in `configure_platform`. The Linux/Android
futex, random and getentropy defines are cc-backend-only. -/
def unixCalls (b : Backend) (c : BuildConfig) : List BCall :=
  [.flag "-fPIC", .flag "-pthread", .flag "-fno-exceptions", .flag "-fno-rtti",
   .flag "-mcx16", .flag "-Wno-unused-parameter"]
    ++ (if c.target_os = "freebsd" then [.flag "-w"] else [])
    ++ (if c.target_os = "haiku" then []
        else [.flag (if c.features.local_dynamic_tls then "-ftls-model=local-dynamic"
                     else "-ftls-model=initial-exec")])
    ++ (if b = .build_cc ∧ (c.target_os = "linux" ∨ c.target_os = "android") then
          [.define "SNMALLOC_HAS_LINUX_FUTEX_H" none,
           .define "SNMALLOC_HAS_LINUX_RANDOM_H" none,
           .define "SNMALLOC_PLATFORM_HAS_GETENTROPY" none]
        else [])

/-- OS axis of `configure_platform`: Windows first, then Unix, else nothing. -/
def osCalls (b : Backend) (c : BuildConfig) : List BCall :=
  if c.is_windows then windowsCalls b c
  else if c.is_unix then unixCalls b c
  else []

/-- ON/OFF boolean encoding used by the shared feature defines. -/
def onOff (v : Bool) : String := if v then "ON" else "OFF"

/-- Per-backend boolean encoding used by the check-loads and pageid
defines: "true"/"false" under cc, "ON"/"OFF" under cmake. -/
def encBool (b : Backend) (v : Bool) : String :=
  match b, v with
  | .build_cc, true => "true"
  | .build_cc, false => "false"
  | .cmake, true => "ON"
  | .cmake, false => "OFF"

/-- Feature pass of `configure_platform`, in source order: the five
always-emitted ON/OFF defines, then tracing, fuzzing, vendored-stl,
check-loads, pageid, gwp-asan (with its two environment-supplied paths)
and the wait-on-address define, whose key differs per backend. -/
def featureCalls (b : Backend) (cf : CargoFeatures) (c : BuildConfig) (env : Env) : List BCall :=
  [.define "SNMALLOC_QEMU_WORKAROUND" (some (onOff c.features.qemu)),
   .define "SNMALLOC_ENABLE_DYNAMIC_LOADING" (some (onOff c.features.notls)),
   .define "USE_SNMALLOC_STATS" (some (onOff c.features.stats)),
   .define "SNMALLOC_RUST_LIBC_API" (some (onOff c.features.libc_api)),
   .define "SNMALLOC_USE_CXX17" (some (onOff cf.usecxx17))]
    ++ (if c.features.tracing then [.define "SNMALLOC_TRACING" (some "ON")] else [])
    ++ (if c.features.fuzzing then [.define "SNMALLOC_ENABLE_FUZZING" (some "ON")] else [])
    ++ (if c.features.vendored_stl then
          [.define "SNMALLOC_USE_SELF_VENDORED_STL"
            (some (if b = .build_cc then "1" else "ON"))]
        else [])
    ++ [.define "SNMALLOC_CHECK_LOADS" (some (encBool b c.features.check_loads))]
    ++ [.define "SNMALLOC_PAGEID" (some (encBool b c.features.pageid))]
    ++ (if c.features.gwp_asan then
          [.define "SNMALLOC_ENABLE_GWP_ASAN_INTEGRATION" (some "ON")]
            ++ (match env "SNMALLOC_GWP_ASAN_INCLUDE_PATH" with
                | some p => [.define "SNMALLOC_GWP_ASAN_INCLUDE_PATH" (some p)]
                | none => [])
            ++ (match env "SNMALLOC_GWP_ASAN_LIBRARY_PATH" with
                | some p => [.define "SNMALLOC_GWP_ASAN_LIBRARY_PATH" (some p)]
                | none => [])
        else [])
    ++ (if c.features.wait_on_address then
          (if b = .build_cc then [.define "SNMALLOC_USE_WAIT_ON_ADDRESS" (some "1")]
           else [.define "SNMALLOC_ENABLE_WAIT_ON_ADDRESS" (some "ON")])
        else
          (if b = .build_cc then [.define "SNMALLOC_USE_WAIT_ON_ADDRESS" (some "0")]
           else [.define "SNMALLOC_ENABLE_WAIT_ON_ADDRESS" (some "OFF")]))

/-- The Android ABI substring table of `configure_platform`, in source
match order; `none` corresponds to the fatal unsupported-architecture
abort. -/
def androidAbi (target : String) : Option (String × Option String) :=
  if strContains target "aarch64" then some ("arm64-v8a", none)
  else if strContains target "armv7" then some ("armeabi-v7a", some "arm")
  else if strContains target "x86_64" then some ("x86_64", none)
  else if strContains target "i686" then some ("x86", none)
  else if strContains target "neon" then some ("armeabi-v7a with NEON", none)
  else if strContains target "arm" then some ("armeabi-v7a", none)
  else none

/-- Android axis of `configure_platform`: requires `ANDROID_NDK` (fatal
abort when absent), then emits toolchain, platform, optional linker and
ABI defines; an architecture outside the substring table aborts fatally. -/
def androidCalls (cf : CargoFeatures) (c : BuildConfig) (env : Env) :
    Except String (List BCall) :=
  if strContains c.target "android" then
    match env "ANDROID_NDK" with
    | none => .error "ANDROID_NDK environment variable not set"
    | some ndk =>
      match androidAbi c.target with
      | none => .error ("Unsupported Android architecture: " ++ c.target)
      | some (abi, armMode) =>
        .ok ([.define "CMAKE_TOOLCHAIN_FILE"
                (some (ndk ++ "/build/cmake/android.toolchain.cmake")),
              .define "ANDROID_PLATFORM" (some ((env "ANDROID_PLATFORM").getD ""))]
          ++ (if cf.android_lld then [.define "ANDROID_LD" (some "lld")] else [])
          ++ [.define "ANDROID_ABI" (some abi)]
          ++ (match armMode with
              | some m => [.define "ANDROID_ARM_MODE" (some m)]
              | none => []))
  else .ok []

/-- `configure_platform`: the full ordered call sequence of the platform
rule table, or the message of the fatal abort that stops it. -/
def configure_platform (b : Backend) (cf : CargoFeatures) (c : BuildConfig)
    (env : Env) : Except String (List BCall) :=
  match androidCalls cf c env with
  | .error e => .error e
  | .ok ac =>
    .ok (baseFlagCalls cf c ++ nativeCpuCalls b c ++ ltoGccCalls b c
      ++ osCalls b c ++ featureCalls b cf c env ++ ac)

/-- One emitted cargo build directive: a library-link directive, a raw
linker argument, or a search-path addition. -/
inductive Directive
  | linkLib (name : String)
  | linkArg (a : String)
  | linkSearch (p : String)
deriving DecidableEq, Repr

/-- `configure_linking`: the guarded-match decision table over the
platform axis, in source order (MSVC, Windows/GNU, FreeBSD host, Linux,
other non-macOS Unix, remaining non-Windows). -/
def configure_linking (cf : CargoFeatures) (c : BuildConfig) (host : HostCfg) :
    List Directive :=
  if c.is_msvc then
    (if c.features.win8compat then [] else [.linkLib "mincore"])
      ++ [.linkLib "kernel32", .linkLib "user32", .linkLib "advapi32",
          .linkLib "ws2_32", .linkLib "userenv", .linkLib "bcrypt"]
      ++ [.linkLib (if c.debug then "msvcrtd" else "msvcrt")]
  else if c.is_windows = true ∧ c.is_gnu = true then
    [.linkLib "kernel32", .linkLib "bcrypt", .linkLib "winpthread"]
      ++ (if c.is_clang_msys then [.linkLib "c++"]
          else if c.is_ucrt64 then [.linkLib "stdc++"]
          else [.linkLib "stdc++", .linkLib "atomic"])
  else if host.os = "freebsd" then [.linkLib "c++"]
  else if c.is_linux then
    [.linkLib "atomic", .linkLib "stdc++", .linkLib "pthread", .linkLib "c",
     .linkLib "gcc_s", .linkLib "util", .linkLib "rt", .linkLib "dl", .linkLib "m",
     .linkArg "-fuse-ld=lld"]
      ++ (if cf.usecxx17 = true ∧ c.is_clang_msys = false then [.linkLib "gcc"] else [])
  else if c.is_unix = true ∧ ¬ (host.os = "macos" ∨ host.os = "freebsd") then
    (if c.is_gnu then [.linkLib "c_nonshared"] else [])
  else if c.is_windows = false then
    [.linkLib (if host.os = "macos" ∨ host.os = "openbsd" then "c++" else "stdc++")]
  else []

/-- `BuildConfig::new`: reads the required cargo environment variables
(fatal abort when one is missing), the optional MSYSTEM marker, the
cargo feature flags, and runs compiler detection. -/
def BuildConfig.new (cf : CargoFeatures) (env : Env) (host : HostCfg) :
    Except String BuildConfig :=
  match env "CARGO_CFG_TARGET_OS" with
  | none => .error "target_os not defined!"
  | some t_os =>
    match env "CARGO_CFG_TARGET_ENV" with
    | none => .error "target_env not defined!"
    | some t_env =>
      match env "CARGO_CFG_TARGET_FAMILY" with
      | none => .error "target family not set"
      | some fam =>
        match env "TARGET" with
        | none => .error "TARGET not set"
        | some tgt =>
          match env "OUT_DIR" with
          | none => .error "OUT_DIR not set"
          | some out =>
            let msystem := env "MSYSTEM"
            .ok { debug := cf.debug
                  optim_level := if cf.debug then "-O0" else "-O3"
                  target_os := t_os
                  target_env := t_env
                  target_family := fam
                  target := tgt
                  out_dir := out
                  build_type := if cf.debug then "Debug" else "Release"
                  msystem := msystem
                  cmake_cxx_standard := if cf.usecxx17 then "17" else "20"
                  target_lib := if cf.check then "snmallocshim-checks-rust"
                                else "snmallocshim-rust"
                  features := BuildFeatures.new cf
                  compiler := BuildConfig.detect_compiler msystem tgt env host }

/-- Backend-housekeeping defines of `configure_cpp` (generator backend
only); the cc backend's `configure_cpp` emits no defines. -/
def cppCalls (b : Backend) : List BCall :=
  match b with
  | .build_cc => []
  | .cmake => [.define "SNMALLOC_RUST_SUPPORT" (some "ON"),
               .define "CMAKE_SH" (some "CMAKE_SH-NOTFOUND")]

/-- The search-path directives printed by `main`. -/
def searchDirectives (c : BuildConfig) : List Directive :=
  [.linkSearch "/usr/local/lib", .linkSearch c.out_dir,
   .linkSearch (c.out_dir ++ "/build"), .linkSearch (c.out_dir ++ "/build/Debug"),
   .linkSearch (c.out_dir ++ "/build/Release")]

/-- The static-artifact link directives printed by `main`: on Linux the
static archive is wrapped in a whole-archive bracket, elsewhere it is a
plain library directive. -/
def artifactDirectives (c : BuildConfig) : List Directive :=
  if c.is_linux then
    [.linkArg "-Wl,--whole-archive", .linkLib ("static=" ++ c.target_lib),
     .linkArg "-Wl,--no-whole-archive"]
  else [.linkLib c.target_lib]

/-- The raw linker arguments printed while the rule table runs. -/
def callDirectives (calls : List BCall) : List Directive :=
  calls.filterMap fun bc =>
    match bc with
    | .linkArg a => some (.linkArg a)
    | _ => none

/-- The outcome of one resolver run: the constructed descriptor, the
capability-interface calls, and the ordered link plan. -/
structure ResolvedBuild where
  config : BuildConfig
  calls : List BCall
  directives : List Directive
deriving DecidableEq, Repr

/-- `main`: construct the descriptor, apply `configure_cpp` and the rule
table, then emit search paths, the artifact directives and the link
plan, or stop at the first fatal abort. -/
def mainPlan (b : Backend) (cf : CargoFeatures) (env : Env) (host : HostCfg) :
    Except String ResolvedBuild :=
  match BuildConfig.new cf env host with
  | .error e => .error e
  | .ok c =>
    match configure_platform b cf c env with
    | .error e => .error e
    | .ok pc =>
      .ok { config := c
            calls := cppCalls b ++ pc
            directives := callDirectives (cppCalls b ++ pc) ++ searchDirectives c
              ++ artifactDirectives c ++ configure_linking cf c host }

/-- One semantic define resolved from a call: trait `define` keeps its
optional value, `compiler_define` always carries a value. -/
def BCall.semDef : BCall → Option (String × Option String)
  | .define k v => some (k, v)
  | .compilerDefine k v => some (k, some v)
  | _ => none

/-- All semantic defines of a call sequence, in emission order. -/
def semanticDefines (calls : List BCall) : List (String × Option String) :=
  calls.filterMap BCall.semDef

/-- The meaning a backend's define value denotes once its boolean
encoding is stripped: a boolean, or the literal text. An absent value
(presence-style define) denotes true. -/
inductive DefMeaning
  | boolean (b : Bool)
  | text (s : String)
deriving DecidableEq, Repr

def valMeaning : Option String → DefMeaning
  | none => .boolean true
  | some v =>
    if v = "ON" ∨ v = "1" ∨ v = "true" ∨ v = "TRUE" then .boolean true
    else if v = "OFF" ∨ v = "0" ∨ v = "false" ∨ v = "FALSE" then .boolean false
    else .text v

/-- Semantic defines with backend boolean encodings stripped. -/
def normDefines (calls : List BCall) : List (String × DefMeaning) :=
  (semanticDefines calls).map fun kv => (kv.1, valMeaning kv.2)

/-- The keys on which the two backends are known to diverge: the
wait-on-address define uses a different key per backend, and the
Linux/Android platform-probe defines and the MSVC NDEBUG define are
emitted by the cc backend only. -/
def backendDivergentKeys : List String :=
  ["SNMALLOC_USE_WAIT_ON_ADDRESS", "SNMALLOC_ENABLE_WAIT_ON_ADDRESS",
   "SNMALLOC_HAS_LINUX_FUTEX_H", "SNMALLOC_HAS_LINUX_RANDOM_H",
   "SNMALLOC_PLATFORM_HAS_GETENTROPY", "NDEBUG"]

/-- Normalised semantic defines restricted to the keys on which backend
parity is claimed. -/
def portableDefines (calls : List BCall) : List (String × DefMeaning) :=
  (normDefines calls).filter fun kv => ¬ kv.1 ∈ backendDivergentKeys

/-- Normalised semantic defines of a rule-table run, empty when the run
aborts. -/
def platformDefines (b : Backend) (cf : CargoFeatures) (c : BuildConfig)
    (env : Env) : List (String × DefMeaning) :=
  match configure_platform b cf c env with
  | .ok l => normDefines l
  | .error _ => []

/-- A finite environment built from an association list. -/
def envOf (l : List (String × String)) : Env := fun k =>
  (l.find? (fun kv => kv.1 == k)).map (fun kv => kv.2)

/-- The environment with no variables set. -/
def emptyEnv : Env := fun _ => none

/-- All cargo feature flags off. -/
def noFeatures : CargoFeatures :=
  { debug := false, usecxx17 := false, check := false, native_cpu := false,
    qemu := false, wait_on_address := false, lto := false, notls := false,
    win8compat := false, stats := false, android_lld := false,
    local_dynamic_tls := false, libc_api := false, tracing := false,
    fuzzing := false, vendored_stl := false, check_loads := false,
    pageid := false, gwp_asan := false }

/-- A well-formed cargo environment for an x86_64 Linux/GNU target. -/
def linuxEnv : Env := envOf
  [("CARGO_CFG_TARGET_OS", "linux"), ("CARGO_CFG_TARGET_ENV", "gnu"),
   ("CARGO_CFG_TARGET_FAMILY", "unix"), ("TARGET", "x86_64-unknown-linux-gnu"),
   ("OUT_DIR", "/out")]

/-- A cargo environment whose target OS is linux but whose target
environment is msvc. -/
def linuxMsvcEnv : Env := envOf
  [("CARGO_CFG_TARGET_OS", "linux"), ("CARGO_CFG_TARGET_ENV", "msvc"),
   ("CARGO_CFG_TARGET_FAMILY", "unix"), ("TARGET", "x86_64-unknown-linux-msvc"),
   ("OUT_DIR", "/out")]

/-- A well-formed cargo environment for an x86_64 Windows/MSVC target. -/
def winMsvcEnv : Env := envOf
  [("CARGO_CFG_TARGET_OS", "windows"), ("CARGO_CFG_TARGET_ENV", "msvc"),
   ("CARGO_CFG_TARGET_FAMILY", "windows"), ("TARGET", "x86_64-pc-windows-msvc"),
   ("OUT_DIR", "/out")]

/-- A Unix-like build host. -/
def linuxHost : HostCfg := { windows := false, unix := true, os := "linux" }

/-- A bare descriptor on no recognised platform axis. -/
def plainConfig : BuildConfig :=
  { debug := false, optim_level := "-O3", target_os := "none", target_env := "",
    target_family := "none", target := "bare-metal", out_dir := "/out",
    build_type := "Release", msystem := none, cmake_cxx_standard := "20",
    target_lib := "snmallocshim-rust", features := BuildFeatures.new noFeatures,
    compiler := .unknown }

/-- Feature flags with only gwp-asan enabled. -/
def gwpFeatures : CargoFeatures := { noFeatures with gwp_asan := true }

/-- The bare descriptor with the gwp-asan feature resolved on. -/
def gwpConfig : BuildConfig :=
  { plainConfig with features := BuildFeatures.new gwpFeatures }

/-- An ambient environment carrying a gwp-asan include path. -/
def gwpPathEnv : Env := envOf [("SNMALLOC_GWP_ASAN_INCLUDE_PATH", "/gwp/include")]

/-- A descriptor for an Android target whose architecture substring
matches no entry of the ABI table. -/
def androidRiscvConfig : BuildConfig :=
  { debug := false, optim_level := "-O3", target_os := "android",
    target_env := "", target_family := "unix", target := "riscv64-linux-android",
    out_dir := "/out", build_type := "Release", msystem := none,
    cmake_cxx_standard := "20", target_lib := "snmallocshim-rust",
    features := BuildFeatures.new noFeatures, compiler := .clang }

/-- An ambient environment providing the Android NDK root. -/
def androidNdkEnv : Env := envOf [("ANDROID_NDK", "/opt/ndk")]

/-- A Windows/MSVC descriptor with win8compat off. -/
def winMsvcConfig : BuildConfig :=
  { debug := false, optim_level := "-O3", target_os := "windows",
    target_env := "msvc", target_family := "windows",
    target := "x86_64-pc-windows-msvc", out_dir := "/out",
    build_type := "Release", msystem := none, cmake_cxx_standard := "20",
    target_lib := "snmallocshim-rust", features := BuildFeatures.new noFeatures,
    compiler := .msvc }

/-- The resolver run of `mainPlan`, with an aborted run yielding an empty
plan. -/
def planOf (b : Backend) (cf : CargoFeatures) (env : Env) (host : HostCfg) :
    List Directive :=
  match mainPlan b cf env host with
  | .ok rb => rb.directives
  | .error _ => []

/-- The `compiler_define` pairs of a call sequence, in emission order. -/
def compilerDefines (calls : List BCall) : List (String × String) :=
  calls.filterMap fun bc =>
    match bc with
    | .compilerDefine k v => some (k, v)
    | _ => none

/-- The Windows-version define pair selected by the win8compat toggle. -/
def winPairList (c : BuildConfig) : List (String × String) :=
  if c.features.win8compat then
    [("WINVER", "0x0603"), ("_WIN32_WINNT", "0x0603")]
  else
    [("WINVER", "0x0A00"), ("_WIN32_WINNT", "0x0A00")]

/-- `core::alloc::Layout`: a size and an alignment (the alignment is at
least 1 and a power of two by the Rust type's invariant). -/
structure Layout where
  size : Nat
  align : Nat
deriving DecidableEq, Repr

/-- One call into the native allocation component (the `sn_rust_*`
foreign functions), with pointers modelled as addresses. -/
inductive NativeCall
  | alloc (align size : Nat)
  | allocZeroed (align size : Nat)
  | dealloc (ptr align size : Nat)
  | usableSize (ptr : Nat)
deriving DecidableEq, Repr

/-- The native allocation component as an oracle for the values its
calls return. -/
structure NativeAllocator where
  allocResult : Nat → Nat → Nat
  allocZeroedResult : Nat → Nat → Nat
  usableSizeResult : Nat → Nat

/-- `NonNull::new`: none exactly on the null pointer. -/
def nonNullNew (p : Nat) : Option Nat := if p = 0 then none else some p

/-- `GlobalAlloc::alloc` for `SnMalloc`: a zero-size layout returns the
alignment reinterpreted as the pointer, otherwise the native allocator
is called; the second component records the native calls made. -/
def SnMalloc.alloc (m : NativeAllocator) (l : Layout) : Nat × List NativeCall :=
  match l.size with
  | 0 => (l.align, [])
  | size => (m.allocResult l.align size, [.alloc l.align size])

/-- `GlobalAlloc::alloc_zeroed` for `SnMalloc`. -/
def SnMalloc.alloc_zeroed (m : NativeAllocator) (l : Layout) : Nat × List NativeCall :=
  match l.size with
  | 0 => (l.align, [])
  | size => (m.allocZeroedResult l.align size, [.allocZeroed l.align size])

/-- `SnMalloc::alloc_aligned`: like alloc but wrapped in `NonNull::new`. -/
def SnMalloc.alloc_aligned (m : NativeAllocator) (l : Layout) :
    Option Nat × List NativeCall :=
  match l.size with
  | 0 => (nonNullNew l.align, [])
  | size => (nonNullNew (m.allocResult l.align size), [.alloc l.align size])

/-- `GlobalAlloc::dealloc` for `SnMalloc`: the native deallocator runs
only for a non-zero layout size. -/
def SnMalloc.dealloc (ptr : Nat) (l : Layout) : List NativeCall :=
  if l.size ≠ 0 then [.dealloc ptr l.align l.size] else []

/-- `SnMalloc::usable_size`: none on the null pointer, otherwise the
native usable-size query. -/
def SnMalloc.usable_size (m : NativeAllocator) (ptr : Nat) :
    Option Nat × List NativeCall :=
  if ptr = 0 then (none, [])
  else (some (m.usableSizeResult ptr), [.usableSize ptr])

/-- A concrete native-allocator oracle for witness evaluation. -/
def unitAllocator : NativeAllocator where
  allocResult := fun a s => a + s
  allocZeroedResult := fun a s => a + s
  usableSizeResult := fun _ => 64

/-- The resolver outcome, with an aborted run replaced by an inert one;
used to name concrete runs in closed statements. -/
def resolvedOrDefault (b : Backend) (cf : CargoFeatures) (env : Env)
    (host : HostCfg) : ResolvedBuild :=
  match mainPlan b cf env host with
  | .ok rb => rb
  | .error _ => { config := plainConfig, calls := [], directives := [] }

/-- The call sequence of a rule-table run, empty when the run aborts. -/
def callsOrNil (b : Backend) (cf : CargoFeatures) (c : BuildConfig)
    (env : Env) : List BCall :=
  match configure_platform b cf c env with
  | .ok l => l
  | .error _ => []

/-- An ambient environment carrying only a compiler override. -/
def ccOnlyEnv : Env := envOf [("CC", "clang")]

/-- A concrete zero-size layout. -/
def zeroLayout : Layout := { size := 0, align := 8 }

theorem portableDefines_append (a c : List BCall) :
    portableDefines (a ++ c) = portableDefines a ++ portableDefines c := by
  simp [portableDefines, normDefines, semanticDefines]

theorem portableDefines_nil : portableDefines [] = [] := rfl

theorem portableDefines_cons_define (k : String) (v : Option String) (l : List BCall) :
    portableDefines (BCall.define k v :: l) =
      if k ∈ backendDivergentKeys then portableDefines l
      else (k, valMeaning v) :: portableDefines l := by
  unfold portableDefines normDefines semanticDefines
  split_ifs with h <;> simp [List.filterMap_cons, BCall.semDef, h]

theorem portableDefines_cons_cdefine (k v : String) (l : List BCall) :
    portableDefines (BCall.compilerDefine k v :: l) =
      if k ∈ backendDivergentKeys then portableDefines l
      else (k, valMeaning (some v)) :: portableDefines l := by
  unfold portableDefines normDefines semanticDefines
  split_ifs with h <;> simp [List.filterMap_cons, BCall.semDef, h]

theorem portableDefines_cons_flag (f : String) (l : List BCall) :
    portableDefines (BCall.flag f :: l) = portableDefines l := rfl

theorem portableDefines_cons_linkArg (a : String) (l : List BCall) :
    portableDefines (BCall.linkArg a :: l) = portableDefines l := rfl

theorem portable_base (cf : CargoFeatures) (c : BuildConfig) :
    portableDefines (baseFlagCalls cf c) = [] := by
  unfold baseFlagCalls get_cpp_flags
  split <;> rfl

theorem portable_native (b : Backend) (c : BuildConfig) :
    portableDefines (nativeCpuCalls b c) =
      (if c.features.native_cpu then
        [("SNMALLOC_OPTIMISE_FOR_CURRENT_MACHINE", DefMeaning.boolean true)]
      else []) := by
  unfold nativeCpuCalls
  cases b <;> split <;> rfl

theorem portable_lto (b : Backend) (c : BuildConfig) :
    portableDefines (ltoGccCalls b c) = [] := by
  unfold ltoGccCalls
  cases b <;> split <;> try rfl

theorem portable_msvc (b : Backend) (c : BuildConfig) :
    portableDefines (msvcCalls b c) =
      (if c.features.lto then
        [("CMAKE_INTERPROCEDURAL_OPTIMIZATION", DefMeaning.boolean true),
         ("SNMALLOC_IPO", DefMeaning.boolean true)]
       else [])
      ++ [("CMAKE_CXX_FLAGS_RELEASE", DefMeaning.text "/O2 /Ob2 /DNDEBUG /EHsc"),
          ("CMAKE_C_FLAGS_RELEASE", DefMeaning.text "/O2 /Ob2 /DNDEBUG /EHsc")] := by
  unfold msvcCalls
  cases b <;> cases hd : c.debug <;> cases hl : c.features.lto <;> simp [hd, hl] <;> rfl

theorem portable_windows (c : BuildConfig) :
    portableDefines (windowsCalls .build_cc c) = portableDefines (windowsCalls .cmake c) := by
  unfold windowsCalls
  cases hm : c.is_msvc <;>
    simp [hm, portableDefines_append, portable_msvc]

theorem portable_unix (b : Backend) (c : BuildConfig) :
    portableDefines (unixCalls b c) = [] := by
  unfold unixCalls
  cases b <;> split_ifs <;> rfl

theorem portable_os (c : BuildConfig) :
    portableDefines (osCalls .build_cc c) = portableDefines (osCalls .cmake c) := by
  unfold osCalls
  split_ifs <;> simp [portable_windows, portable_unix]

theorem portable_feature (cf : CargoFeatures) (c : BuildConfig) (env : Env) :
    portableDefines (featureCalls .build_cc cf c env) =
      portableDefines (featureCalls .cmake cf c env) := by
  unfold featureCalls
  cases hv : c.features.vendored_stl <;> cases hc : c.features.check_loads <;>
    cases hp : c.features.pageid <;> cases hw : c.features.wait_on_address <;>
    simp [portableDefines_append, portableDefines_cons_define, portableDefines_nil,
      backendDivergentKeys, valMeaning, encBool]

/-- Claim C1 (counterexample): the claim that both backends resolve the
same set of semantic defines (same key, same stripped boolean meaning)
is false: on a concrete descriptor both rule-table runs succeed, yet the
cc backend resolves the wait-on-address toggle under the key
SNMALLOC_USE_WAIT_ON_ADDRESS while the generator backend does not resolve
that key at all (it uses SNMALLOC_ENABLE_WAIT_ON_ADDRESS). -/
theorem backend_define_sets_differ :
    ("SNMALLOC_USE_WAIT_ON_ADDRESS", DefMeaning.boolean false)
        ∈ platformDefines .build_cc noFeatures plainConfig emptyEnv
  ∧ ("SNMALLOC_USE_WAIT_ON_ADDRESS", DefMeaning.boolean false)
        ∉ platformDefines .cmake noFeatures plainConfig emptyEnv
  ∧ (configure_platform .build_cc noFeatures plainConfig emptyEnv).isOk = true
  ∧ (configure_platform .cmake noFeatures plainConfig emptyEnv).isOk = true := by
  decide

/-- Claim C1 (amended): for every (descriptor, features, environment),
the two backends' rule-table runs agree fatally-aborted-or-not, and on
success they resolve the same sequence of semantic defines after
stripping boolean encodings, once the known divergent keys are excluded:
the wait-on-address define (different key per backend), the cc-only
Linux/Android platform-probe defines, and the cc-only MSVC NDEBUG
define. -/
theorem backend_define_parity (cf : CargoFeatures) (c : BuildConfig) (env : Env) :
    (configure_platform .build_cc cf c env).map portableDefines
      = (configure_platform .cmake cf c env).map portableDefines := by
  unfold configure_platform
  cases h : androidCalls cf c env with
  | error e => simp [h]
  | ok ac =>
    simp [h, Except.map, portableDefines_append, portable_base, portable_native,
      portable_lto, portable_os, portable_feature]

/-- Claim C2: `detect_compiler` returns exactly one compiler by the
documented four-step priority chain, first match wins, absence of a
signal falls through to the next step, and no step aborts (the function
is total). Step 3 compares the lower-cased CC override. -/
theorem detect_compiler_priority_chain (ms : Option String) (t : String)
    (env : Env) (h : HostCfg) :
    (∀ s, ms = some s → (s = "CLANG64" ∨ s = "CLANGARM64") →
        BuildConfig.detect_compiler ms t env h = .clang)
  ∧ (∀ s, ms = some s → (s = "MINGW64" ∨ s = "UCRT64") →
        BuildConfig.detect_compiler ms t env h = .gcc)
  ∧ (detectFromMsystem ms = none →
      ((env "CARGO_CFG_TARGET_ENV" = some "msvc" →
          BuildConfig.detect_compiler ms t env h = .msvc)
      ∧ (env "CARGO_CFG_TARGET_ENV" = some "gnu" →
          BuildConfig.detect_compiler ms t env h = .gcc)
      ∧ (detectFromTargetEnv env = none →
          ((∀ cc, env "CC" = some cc → strContains (strLower cc) "clang" = true →
              BuildConfig.detect_compiler ms t env h = .clang)
          ∧ (∀ cc, env "CC" = some cc → strContains (strLower cc) "clang" = false →
              strContains (strLower cc) "gcc" = true →
              BuildConfig.detect_compiler ms t env h = .gcc)
          ∧ (detectFromCC env = none →
              ((strContains t "msvc" = true →
                  BuildConfig.detect_compiler ms t env h = .msvc)
              ∧ (strContains t "msvc" = false → h.windows = true →
                  BuildConfig.detect_compiler ms t env h = .gcc)
              ∧ (strContains t "msvc" = false → h.windows = false → h.unix = true →
                  BuildConfig.detect_compiler ms t env h = .clang)
              ∧ (strContains t "msvc" = false → h.windows = false → h.unix = false →
                  BuildConfig.detect_compiler ms t env h = .unknown))))))) := by
  refine ⟨?_, ?_, ?_⟩
  · rintro s rfl (rfl | rfl) <;> rfl
  · rintro s rfl (rfl | rfl) <;> rfl
  · intro h1
    unfold BuildConfig.detect_compiler
    rw [h1]
    refine ⟨?_, ?_, ?_⟩
    · intro h2; simp [detectFromTargetEnv, h2]
    · intro h2; simp [detectFromTargetEnv, h2]
    · intro h2
      rw [h2]
      refine ⟨?_, ?_, ?_⟩
      · intro cc hcc hcl; simp [detectFromCC, hcc, hcl]
      · intro cc hcc hcl hgc; simp [detectFromCC, hcc, hcl, hgc]
      · intro h3
        rw [h3]
        unfold detectDefault
        refine ⟨?_, ?_, ?_, ?_⟩ <;> intro ha <;> simp [ha] <;> intro hb <;> simp [hb]

/-- Claim C2 (witness): the CLANG64 subsystem marker resolves to Clang. -/
theorem detect_compiler_priority_chain_witness :
    BuildConfig.detect_compiler (some "CLANG64") "x86_64-pc-windows-gnu"
      emptyEnv linuxHost = .clang :=
  (detect_compiler_priority_chain (some "CLANG64") "x86_64-pc-windows-gnu"
    emptyEnv linuxHost).1 "CLANG64" rfl (Or.inl rfl)

theorem compilerDefines_nil : compilerDefines [] = [] := rfl

theorem compilerDefines_append (a c : List BCall) :
    compilerDefines (a ++ c) = compilerDefines a ++ compilerDefines c := by
  simp [compilerDefines]

theorem compilerDefines_cons_define (k : String) (v : Option String) (l : List BCall) :
    compilerDefines (BCall.define k v :: l) = compilerDefines l := rfl

theorem compilerDefines_cons_flag (f : String) (l : List BCall) :
    compilerDefines (BCall.flag f :: l) = compilerDefines l := rfl

theorem compilerDefines_cons_linkArg (a : String) (l : List BCall) :
    compilerDefines (BCall.linkArg a :: l) = compilerDefines l := rfl

theorem compilerDefines_cons_cdefine (k v : String) (l : List BCall) :
    compilerDefines (BCall.compilerDefine k v :: l) = (k, v) :: compilerDefines l := rfl

theorem cdefs_base (cf : CargoFeatures) (c : BuildConfig) :
    compilerDefines (baseFlagCalls cf c) = [] := by
  unfold baseFlagCalls get_cpp_flags
  split <;> rfl

theorem cdefs_native (b : Backend) (c : BuildConfig) :
    compilerDefines (nativeCpuCalls b c) = [] := by
  unfold nativeCpuCalls
  cases b <;> split <;> rfl

theorem cdefs_lto (b : Backend) (c : BuildConfig) :
    compilerDefines (ltoGccCalls b c) = [] := by
  unfold ltoGccCalls
  cases b <;> split <;> try rfl

theorem cdefs_winVersion (c : BuildConfig) :
    compilerDefines (winVersionCalls c) = winPairList c := by
  unfold winVersionCalls winPairList
  split <;> rfl

theorem cdefs_msvc (b : Backend) (c : BuildConfig) :
    compilerDefines (msvcCalls b c) = [] := by
  unfold msvcCalls
  cases b <;> split_ifs <;> rfl

theorem cdefs_msystem (c : BuildConfig) :
    compilerDefines (msystemCalls c) = [] := by
  rcases hm : c.msystem with _ | ms <;> simp only [msystemCalls, hm]
  · rfl
  · split_ifs <;> simp [compilerDefines, clang64Defines, ucrt64Defines]

theorem cdefs_unix (b : Backend) (c : BuildConfig) :
    compilerDefines (unixCalls b c) = [] := by
  unfold unixCalls
  cases b <;> split_ifs <;> rfl

theorem cdefs_feature (b : Backend) (cf : CargoFeatures) (c : BuildConfig) (env : Env) :
    compilerDefines (featureCalls b cf c env) = [] := by
  unfold featureCalls
  rcases h1 : env "SNMALLOC_GWP_ASAN_INCLUDE_PATH" with _ | p1 <;>
    rcases h2 : env "SNMALLOC_GWP_ASAN_LIBRARY_PATH" with _ | p2 <;>
    simp [h1, h2, compilerDefines_append, compilerDefines_cons_define,
      compilerDefines_nil, apply_ite compilerDefines]

theorem cdefs_android (cf : CargoFeatures) (c : BuildConfig) (env : Env)
    (ac : List BCall) (h : androidCalls cf c env = .ok ac) :
    compilerDefines ac = [] := by
  unfold androidCalls at h
  split at h
  · rcases hN : env "ANDROID_NDK" with _ | ndk
    · rw [hN] at h; simp at h
    · rw [hN] at h
      rcases hA : androidAbi c.target with _ | abiArm
      · rw [hA] at h; simp at h
      · rw [hA] at h
        obtain ⟨abi, armMode⟩ := abiArm
        injection h with h'
        rw [← h']
        rcases armMode with _ | m <;>
          simp [compilerDefines_append, compilerDefines_cons_define,
            compilerDefines_nil, apply_ite compilerDefines]
  · injection h with h'
    rw [← h']
    rfl

theorem cdefs_os_windows (b : Backend) (c : BuildConfig) (hw : c.is_windows = true) :
    compilerDefines (osCalls b c) =
      winPairList c ++ (if c.is_msvc then [] else winPairList c) := by
  unfold osCalls windowsCalls
  cases hm : c.is_msvc <;>
    simp [hw, hm, compilerDefines_append, cdefs_winVersion, cdefs_msvc, cdefs_msystem,
      compilerDefines_cons_flag]

theorem cdefs_platform (b : Backend) (cf : CargoFeatures) (c : BuildConfig)
    (env : Env) (calls : List BCall)
    (hok : configure_platform b cf c env = .ok calls)
    (hw : c.is_windows = true) :
    compilerDefines calls = winPairList c ++ (if c.is_msvc then [] else winPairList c) := by
  unfold configure_platform at hok
  cases ha : androidCalls cf c env with
  | error e => rw [ha] at hok; simp at hok
  | ok ac =>
    rw [ha] at hok
    injection hok with h'
    rw [← h']
    simp [compilerDefines_append, cdefs_base, cdefs_native, cdefs_lto,
      cdefs_feature, cdefs_android cf c env ac ha, cdefs_os_windows b c hw]

theorem mem_compilerDefines (k v : String) (l : List BCall) :
    (k, v) ∈ compilerDefines l ↔ BCall.compilerDefine k v ∈ l := by
  induction l with
  | nil => simp [compilerDefines]
  | cons x rest ih =>
    cases x with
    | define k2 v2 => rw [compilerDefines_cons_define]; simp [ih]
    | compilerDefine k2 v2 => rw [compilerDefines_cons_cdefine]; simp [ih]
    | flag f => rw [compilerDefines_cons_flag]; simp [ih]
    | linkArg a => rw [compilerDefines_cons_linkArg]; simp [ih]

/-- Claim C6: on every Windows-targeting configuration whose rule-table
run succeeds, the build plan contains the (WINVER, _WIN32_WINNT) =
0x0603 define pair exactly when win8compat is enabled and the 0x0A00
pair exactly when it is disabled — never both pairs and never neither. -/
theorem windows_version_define_pairs (b : Backend) (cf : CargoFeatures)
    (c : BuildConfig) (env : Env) (calls : List BCall)
    (hok : configure_platform b cf c env = .ok calls)
    (hwin : c.target_os = "windows") :
    ((BCall.compilerDefine "WINVER" "0x0603" ∈ calls
        ∧ BCall.compilerDefine "_WIN32_WINNT" "0x0603" ∈ calls)
      ↔ c.features.win8compat = true)
  ∧ ((BCall.compilerDefine "WINVER" "0x0A00" ∈ calls
        ∧ BCall.compilerDefine "_WIN32_WINNT" "0x0A00" ∈ calls)
      ↔ c.features.win8compat = false) := by
  have hw : c.is_windows = true := by simp [BuildConfig.is_windows, hwin]
  have hcd := cdefs_platform b cf c env calls hok hw
  rw [← mem_compilerDefines, ← mem_compilerDefines, ← mem_compilerDefines,
    ← mem_compilerDefines, hcd]
  unfold winPairList
  cases hw8 : c.features.win8compat <;> cases hm : c.is_msvc <;> simp [hw8, hm]

/-- Claim C6 (witness): evaluated on a concrete Windows/MSVC descriptor
with win8compat off. -/
theorem windows_version_define_pairs_witness :
    ((BCall.compilerDefine "WINVER" "0x0603"
          ∈ callsOrNil .cmake noFeatures winMsvcConfig emptyEnv
        ∧ BCall.compilerDefine "_WIN32_WINNT" "0x0603"
          ∈ callsOrNil .cmake noFeatures winMsvcConfig emptyEnv)
      ↔ winMsvcConfig.features.win8compat = true)
  ∧ ((BCall.compilerDefine "WINVER" "0x0A00"
          ∈ callsOrNil .cmake noFeatures winMsvcConfig emptyEnv
        ∧ BCall.compilerDefine "_WIN32_WINNT" "0x0A00"
          ∈ callsOrNil .cmake noFeatures winMsvcConfig emptyEnv)
      ↔ winMsvcConfig.features.win8compat = false) :=
  windows_version_define_pairs .cmake noFeatures winMsvcConfig emptyEnv
    (callsOrNil .cmake noFeatures winMsvcConfig emptyEnv) rfl rfl

theorem platform_ok_of_no_android (b : Backend) (cf : CargoFeatures)
    (c : BuildConfig) (env : Env) (h : strContains c.target "android" = false) :
    (configure_platform b cf c env).isOk = true := by
  unfold configure_platform androidCalls
  simp [h, Except.isOk, Except.toBool]

theorem mainPlan_isOk_parts (b : Backend) (cf : CargoFeatures) (env : Env)
    (host : HostCfg) (c : BuildConfig)
    (hN : BuildConfig.new cf env host = .ok c)
    (hand : strContains c.target "android" = false) :
    (mainPlan b cf env host).isOk = true := by
  have h := platform_ok_of_no_android b cf c env hand
  unfold mainPlan
  cases hP : configure_platform b cf c env with
  | error e => rw [hP] at h; simp [Except.isOk, Except.toBool] at h
  | ok pc => simp [hN, hP, Except.isOk, Except.toBool]

theorem BuildConfig_new_ok (cf : CargoFeatures) (env : Env) (host : HostCfg)
    (t_os t_env fam tgt out : String)
    (h1 : env "CARGO_CFG_TARGET_OS" = some t_os)
    (h2 : env "CARGO_CFG_TARGET_ENV" = some t_env)
    (h3 : env "CARGO_CFG_TARGET_FAMILY" = some fam)
    (h4 : env "TARGET" = some tgt)
    (h5 : env "OUT_DIR" = some out) :
    ∃ c, BuildConfig.new cf env host = .ok c ∧ c.target = tgt := by
  unfold BuildConfig.new
  rw [h1, h2, h3, h4, h5]
  exact ⟨_, rfl, rfl⟩

theorem mainPlan_ok_elim (b : Backend) (cf : CargoFeatures) (env : Env)
    (host : HostCfg) (rb : ResolvedBuild) (h : mainPlan b cf env host = .ok rb) :
    ∃ c pc, BuildConfig.new cf env host = .ok c
      ∧ configure_platform b cf c env = .ok pc
      ∧ rb.config = c
      ∧ rb.directives = callDirectives (cppCalls b ++ pc) ++ searchDirectives c
          ++ artifactDirectives c ++ configure_linking cf c host := by
  unfold mainPlan at h
  cases hN : BuildConfig.new cf env host with
  | error e => rw [hN] at h; simp at h
  | ok c =>
    rw [hN] at h
    dsimp only at h
    cases hP : configure_platform b cf c env with
    | error e => rw [hP] at h; simp at h
    | ok pc =>
      rw [hP] at h
      injection h with h'
      exact ⟨c, pc, rfl, hP, by rw [← h'], by rw [← h']⟩

theorem new_target_lib (cf : CargoFeatures) (env : Env) (host : HostCfg)
    (c : BuildConfig) (h : BuildConfig.new cf env host = .ok c) :
    c.target_lib
      = (if cf.check then "snmallocshim-checks-rust" else "snmallocshim-rust") := by
  unfold BuildConfig.new at h
  rcases e1 : env "CARGO_CFG_TARGET_OS" with _ | a1 <;> rw [e1] at h
  · simp at h
  rcases e2 : env "CARGO_CFG_TARGET_ENV" with _ | a2 <;> rw [e2] at h
  · simp at h
  rcases e3 : env "CARGO_CFG_TARGET_FAMILY" with _ | a3 <;> rw [e3] at h
  · simp at h
  rcases e4 : env "TARGET" with _ | a4 <;> rw [e4] at h
  · simp at h
  rcases e5 : env "OUT_DIR" with _ | a5 <;> rw [e5] at h
  · simp at h
  injection h with h'
  rw [← h']

theorem callDirectives_nil : callDirectives [] = [] := rfl

theorem callDirectives_cons_define (k : String) (v : Option String) (l : List BCall) :
    callDirectives (BCall.define k v :: l) = callDirectives l := rfl

theorem callDirectives_cons_cdefine (k v : String) (l : List BCall) :
    callDirectives (BCall.compilerDefine k v :: l) = callDirectives l := rfl

theorem callDirectives_cons_flag (f : String) (l : List BCall) :
    callDirectives (BCall.flag f :: l) = callDirectives l := rfl

theorem callDirectives_cons_linkArg (a : String) (l : List BCall) :
    callDirectives (BCall.linkArg a :: l) = Directive.linkArg a :: callDirectives l := rfl

theorem callDirectives_no_linkLib (calls : List BCall) (s : String) :
    Directive.linkLib s ∉ callDirectives calls := by
  induction calls with
  | nil => simp [callDirectives_nil]
  | cons x rest ih =>
    cases x with
    | define k v => rw [callDirectives_cons_define]; exact ih
    | compilerDefine k v => rw [callDirectives_cons_cdefine]; exact ih
    | flag f => rw [callDirectives_cons_flag]; exact ih
    | linkArg a => rw [callDirectives_cons_linkArg]; simp [ih]

theorem search_no_linkLib (c : BuildConfig) (s : String) :
    Directive.linkLib s ∉ searchDirectives c := by
  simp [searchDirectives]

theorem static_append_data (s : String) :
    ("static=" ++ s).data = 's' :: 't' :: 'a' :: 't' :: 'i' :: 'c' :: '=' :: s.data := by
  obtain ⟨d⟩ := s
  rfl

theorem static_append_ne (s t : String) (h : t.data.head? ≠ some 's') :
    ("static=" ++ s) ≠ t := by
  intro he
  apply h
  rw [← he, static_append_data]
  rfl

theorem count_atomic_artifact (c : BuildConfig) (hlin : c.is_linux = true) :
    (artifactDirectives c).count (Directive.linkLib "atomic") = 0 := by
  have hne := static_append_ne c.target_lib "atomic" (by decide)
  unfold artifactDirectives
  rw [hlin]
  simp [List.count_cons, hne]

theorem count_atomic_linking_linux (cf : CargoFeatures) (c : BuildConfig)
    (host : HostCfg) (hos : c.target_os = "linux") (henv : c.target_env ≠ "msvc")
    (hhost : host.os ≠ "freebsd") :
    (configure_linking cf c host).count (Directive.linkLib "atomic") = 1 := by
  have h1 : c.is_msvc = false := by simp [BuildConfig.is_msvc]; exact henv
  have h2 : c.is_windows = false := by simp [BuildConfig.is_windows, hos]
  have h3 : c.is_linux = true := by simp [BuildConfig.is_linux, hos]
  unfold configure_linking
  simp [h1, h2, h3, hhost]
  split_ifs <;> simp [List.count_cons, List.count_append]

/-- Claim C4 (amended): for every successfully resolved configuration
whose target OS is linux, whose target environment is not msvc (the
msvc guard in configure_linking fires first), and whose build host is
not FreeBSD (the host-side FreeBSD guard fires before the linux one),
the link plan wraps the static artifact in a paired
whole-archive/no-whole-archive bracket with the static library directive
between them and contains exactly one atomics-library directive. -/
theorem linux_link_plan (b : Backend) (cf : CargoFeatures) (env : Env)
    (host : HostCfg) (rb : ResolvedBuild)
    (hok : mainPlan b cf env host = .ok rb)
    (hlinux : rb.config.target_os = "linux")
    (henv : rb.config.target_env ≠ "msvc")
    (hhost : host.os ≠ "freebsd") :
    (∃ pre post, rb.directives =
        pre ++ [Directive.linkArg "-Wl,--whole-archive",
                Directive.linkLib ("static=" ++ rb.config.target_lib),
                Directive.linkArg "-Wl,--no-whole-archive"] ++ post)
  ∧ rb.directives.count (Directive.linkLib "atomic") = 1 := by
  obtain ⟨c, pc, hN, hP, hc, hd⟩ := mainPlan_ok_elim b cf env host rb hok
  rw [hc] at hlinux henv
  have hlin : c.is_linux = true := by simp [BuildConfig.is_linux, hlinux]
  have hart : artifactDirectives c =
      [Directive.linkArg "-Wl,--whole-archive",
       Directive.linkLib ("static=" ++ c.target_lib),
       Directive.linkArg "-Wl,--no-whole-archive"] := by
    simp [artifactDirectives, hlin]
  constructor
  · refine ⟨callDirectives (cppCalls b ++ pc) ++ searchDirectives c,
      configure_linking cf c host, ?_⟩
    rw [hd, hart, hc]
  · rw [hd]
    simp only [List.count_append]
    rw [List.count_eq_zero.mpr (callDirectives_no_linkLib _ _),
      List.count_eq_zero.mpr (search_no_linkLib _ _),
      count_atomic_artifact c hlin,
      count_atomic_linking_linux cf c host hlinux henv hhost]

theorem msvc_linking_eq (cf : CargoFeatures) (c : BuildConfig) (host : HostCfg)
    (henv : c.target_env = "msvc") :
    configure_linking cf c host =
      (if c.features.win8compat then [] else [Directive.linkLib "mincore"])
        ++ [Directive.linkLib "kernel32", Directive.linkLib "user32",
            Directive.linkLib "advapi32", Directive.linkLib "ws2_32",
            Directive.linkLib "userenv", Directive.linkLib "bcrypt"]
        ++ [Directive.linkLib (if c.debug then "msvcrtd" else "msvcrt")] := by
  have h1 : c.is_msvc = true := by simp [BuildConfig.is_msvc, henv]
  unfold configure_linking
  rw [h1]
  simp

theorem artifact_no_linkLib (c : BuildConfig) (s : String)
    (h1 : ("static=" ++ c.target_lib) ≠ s) (h2 : c.target_lib ≠ s) :
    Directive.linkLib s ∉ artifactDirectives c := by
  unfold artifactDirectives
  split_ifs <;> simp [Ne.symm h1, Ne.symm h2]

theorem msvc_no_unix_lib (cf : CargoFeatures) (c : BuildConfig) (host : HostCfg)
    (henv : c.target_env = "msvc") (s : String)
    (hs : s ∉ ["mincore", "kernel32", "user32", "advapi32", "ws2_32",
               "userenv", "bcrypt", "msvcrtd", "msvcrt"]) :
    Directive.linkLib s ∉ configure_linking cf c host := by
  rw [msvc_linking_eq cf c host henv]
  simp only [List.mem_cons, List.mem_singleton] at hs
  push_neg at hs
  split_ifs <;> simp <;> tauto

/-- Claim C5 (amended): for every successfully resolved configuration
whose target environment is msvc, the link plan never contains the
Unix-only directives pthread or dl, and the Msvc branch emits exactly
the six fixed core Windows libraries, the conditional mincore directive
(emitted exactly when win8compat is disabled), and the debug- or
release-specific C runtime variant. -/
theorem msvc_link_plan (b : Backend) (cf : CargoFeatures) (env : Env)
    (host : HostCfg) (rb : ResolvedBuild)
    (hok : mainPlan b cf env host = .ok rb)
    (henv : rb.config.target_env = "msvc") :
    (Directive.linkLib "pthread" ∉ rb.directives
      ∧ Directive.linkLib "dl" ∉ rb.directives)
  ∧ configure_linking cf rb.config host =
      (if rb.config.features.win8compat then [] else [Directive.linkLib "mincore"])
        ++ [Directive.linkLib "kernel32", Directive.linkLib "user32",
            Directive.linkLib "advapi32", Directive.linkLib "ws2_32",
            Directive.linkLib "userenv", Directive.linkLib "bcrypt"]
        ++ [Directive.linkLib (if rb.config.debug then "msvcrtd" else "msvcrt")] := by
  obtain ⟨c, pc, hN, hP, hc, hd⟩ := mainPlan_ok_elim b cf env host rb hok
  rw [hc] at henv ⊢
  have hlib := new_target_lib cf env host c hN
  refine ⟨⟨?_, ?_⟩, msvc_linking_eq cf c host henv⟩
  · rw [hd]
    simp only [List.mem_append, not_or]
    refine ⟨⟨⟨callDirectives_no_linkLib _ _, search_no_linkLib _ _⟩, ?_⟩, ?_⟩
    · exact artifact_no_linkLib c "pthread" (static_append_ne _ _ (by decide))
        (by rw [hlib]; split_ifs <;> decide)
    · exact msvc_no_unix_lib cf c host henv "pthread" (by decide)
  · rw [hd]
    simp only [List.mem_append, not_or]
    refine ⟨⟨⟨callDirectives_no_linkLib _ _, search_no_linkLib _ _⟩, ?_⟩, ?_⟩
    · exact artifact_no_linkLib c "dl" (static_append_ne _ _ (by decide))
        (by rw [hlib]; split_ifs <;> decide)
    · exact msvc_no_unix_lib cf c host henv "dl" (by decide)

/-- Claim C3 (amended): the feature resolver defines no chunk-size
mutual-exclusion group and never aborts: for every combination of cargo
feature flags, resolution on a well-formed non-Android environment runs
to completion with no InvalidMutualExclusion abort — in particular with
zero chunk-size members selected, since build.rs reads none. -/
theorem feature_resolution_never_aborts (b : Backend) (cf : CargoFeatures)
    (env : Env) (host : HostCfg) (t_os t_env fam tgt out : String)
    (h1 : env "CARGO_CFG_TARGET_OS" = some t_os)
    (h2 : env "CARGO_CFG_TARGET_ENV" = some t_env)
    (h3 : env "CARGO_CFG_TARGET_FAMILY" = some fam)
    (h4 : env "TARGET" = some tgt)
    (h5 : env "OUT_DIR" = some out)
    (hand : strContains tgt "android" = false) :
    (mainPlan b cf env host).isOk = true := by
  obtain ⟨c, hN, htgt⟩ :=
    BuildConfig_new_ok cf env host t_os t_env fam tgt out h1 h2 h3 h4 h5
  exact mainPlan_isOk_parts b cf env host c hN (by rw [htgt]; exact hand)

/-- Claim C3 (witness): a concrete run with every feature flag off
resolves successfully. -/
theorem feature_resolution_never_aborts_witness :
    (mainPlan .cmake noFeatures linuxEnv linuxHost).isOk = true :=
  feature_resolution_never_aborts .cmake noFeatures linuxEnv linuxHost
    "linux" "gnu" "unix" "x86_64-unknown-linux-gnu" "/out"
    rfl rfl rfl rfl rfl (by decide)

/-- Claim C7 (amended): for every descriptor whose target triple does
not name Android, the platform rule table never aborts: unrecognized
axis values (unknown subsystem markers, unknown target OSes) fall
through to conservative default branches. An Android triple whose
architecture matches no ABI-table substring instead aborts fatally (see
the counterexample). -/
theorem unrecognized_axis_falls_through (b : Backend) (cf : CargoFeatures)
    (c : BuildConfig) (env : Env) (h : strContains c.target "android" = false) :
    (configure_platform b cf c env).isOk = true :=
  platform_ok_of_no_android b cf c env h

/-- Claim C7 (witness): a descriptor on no recognised platform axis
resolves without aborting. -/
theorem unrecognized_axis_falls_through_witness :
    (configure_platform .build_cc noFeatures plainConfig emptyEnv).isOk = true :=
  unrecognized_axis_falls_through .build_cc noFeatures plainConfig emptyEnv (by decide)

/-- Claim C8 (amended): after descriptor construction, the rule table
re-reads exactly four ambient environment keys (the two GWP-ASan paths,
ANDROID_NDK and ANDROID_PLATFORM): two runs over the same constructed
descriptor and feature set whose ambient environments agree on those
four keys emit identical call sequences, however the rest of the
environment differs. -/
theorem resolver_fixed_env_dependence (b : Backend) (cf : CargoFeatures)
    (c : BuildConfig) (e1 e2 : Env)
    (h1 : e1 "SNMALLOC_GWP_ASAN_INCLUDE_PATH" = e2 "SNMALLOC_GWP_ASAN_INCLUDE_PATH")
    (h2 : e1 "SNMALLOC_GWP_ASAN_LIBRARY_PATH" = e2 "SNMALLOC_GWP_ASAN_LIBRARY_PATH")
    (h3 : e1 "ANDROID_NDK" = e2 "ANDROID_NDK")
    (h4 : e1 "ANDROID_PLATFORM" = e2 "ANDROID_PLATFORM") :
    configure_platform b cf c e1 = configure_platform b cf c e2 := by
  unfold configure_platform androidCalls featureCalls
  rw [h1, h2, h3, h4]

/-- Claim C8 (witness): ambient environments differing only in the CC
override produce identical rule-table output. -/
theorem resolver_fixed_env_dependence_witness :
    configure_platform .cmake noFeatures plainConfig linuxEnv
      = configure_platform .cmake noFeatures plainConfig ccOnlyEnv :=
  resolver_fixed_env_dependence .cmake noFeatures plainConfig linuxEnv ccOnlyEnv
    rfl rfl rfl rfl

/-- Claim C9: on a zero-size layout, alloc, alloc_zeroed and
alloc_aligned return the alignment reinterpreted as the pointer
(non-null since the alignment is positive) and make no native allocator
call, and dealloc performs no native deallocation. -/
theorem zero_size_layout_no_native_calls (m : NativeAllocator) (l : Layout)
    (hsz : l.size = 0) (hal : 0 < l.align) :
    SnMalloc.alloc m l = (l.align, [])
  ∧ (SnMalloc.alloc m l).1 ≠ 0
  ∧ SnMalloc.alloc_zeroed m l = (l.align, [])
  ∧ SnMalloc.alloc_aligned m l = (some l.align, [])
  ∧ ∀ p, SnMalloc.dealloc p l = [] := by
  have hne : l.align ≠ 0 := Nat.pos_iff_ne_zero.mp hal
  refine ⟨?_, ?_, ?_, ?_, ?_⟩ <;>
    simp [SnMalloc.alloc, SnMalloc.alloc_zeroed, SnMalloc.alloc_aligned,
      SnMalloc.dealloc, nonNullNew, hsz, hne]

/-- Claim C9 (witness): evaluated on the concrete zero-size layout of
alignment 8. -/
theorem zero_size_layout_no_native_calls_witness :
    SnMalloc.alloc unitAllocator zeroLayout = (8, [])
  ∧ (SnMalloc.alloc unitAllocator zeroLayout).1 ≠ 0
  ∧ SnMalloc.alloc_zeroed unitAllocator zeroLayout = (8, [])
  ∧ SnMalloc.alloc_aligned unitAllocator zeroLayout = (some 8, [])
  ∧ ∀ p, SnMalloc.dealloc p zeroLayout = [] :=
  zero_size_layout_no_native_calls unitAllocator zeroLayout rfl (by decide)

/-- Claim C10: usable_size returns none exactly on the null pointer,
returns the native usable-size result on every non-null pointer, and
never queries the native component with a null pointer. -/
theorem usable_size_null_contract (m : NativeAllocator) (p : Nat) :
    ((SnMalloc.usable_size m p).1 = none ↔ p = 0)
  ∧ (p ≠ 0 →
      SnMalloc.usable_size m p
        = (some (m.usableSizeResult p), [NativeCall.usableSize p]))
  ∧ (∀ q, NativeCall.usableSize q ∈ (SnMalloc.usable_size m p).2 → q ≠ 0) := by
  by_cases hp : p = 0 <;> simp [SnMalloc.usable_size, hp]

/-- Claim C10 (witness): evaluated at the non-null pointer 7. -/
theorem usable_size_null_contract_witness :
    ((SnMalloc.usable_size unitAllocator 7).1 = none ↔ (7 : Nat) = 0)
  ∧ ((7 : Nat) ≠ 0 →
      SnMalloc.usable_size unitAllocator 7
        = (some (unitAllocator.usableSizeResult 7), [NativeCall.usableSize 7]))
  ∧ (∀ q, NativeCall.usableSize q ∈ (SnMalloc.usable_size unitAllocator 7).2 → q ≠ 0) :=
  usable_size_null_contract unitAllocator 7

/-- Claim C3 (counterexample): the claim that zero selected chunk-size
members abort resolution with InvalidMutualExclusion is false: a
concrete resolution with every feature flag off — hence zero selected
members of any chunk-size group — runs to completion successfully. -/
theorem no_chunk_size_abort_cx :
    (mainPlan .build_cc noFeatures linuxEnv linuxHost).isOk = true := by decide

/-- Claim C4 (counterexample): the claim fails as stated for a linux
target OS paired with the msvc target environment: resolution succeeds,
yet the link plan contains no atomics directive at all, because the
msvc guard of configure_linking fires before the linux branch. -/
theorem linux_link_plan_cx :
    (mainPlan .build_cc noFeatures linuxMsvcEnv linuxHost).isOk = true
  ∧ (planOf .build_cc noFeatures linuxMsvcEnv linuxHost).count
      (Directive.linkLib "atomic") = 0 := by decide

/-- Claim C5 (counterexample): with win8compat disabled (the default)
the Msvc branch also emits mincore, which is neither one of the fixed
core Windows libraries nor a C runtime variant, so the plan does not
consist only of the fixed core set plus the CRT variant. -/
theorem msvc_link_plan_cx :
    Directive.linkLib "mincore" ∈ planOf .build_cc noFeatures winMsvcEnv linuxHost
  ∧ Directive.linkLib "mincore"
      ∉ [Directive.linkLib "kernel32", Directive.linkLib "user32",
         Directive.linkLib "advapi32", Directive.linkLib "ws2_32",
         Directive.linkLib "userenv", Directive.linkLib "bcrypt",
         Directive.linkLib "msvcrtd", Directive.linkLib "msvcrt"] := by decide

/-- Claim C7 (counterexample): an Android target triple whose
architecture substring matches no ABI-table entry does not fall through
to a conservative default: the rule table aborts fatally. -/
theorem android_unknown_arch_abort_cx :
    configure_platform .cmake noFeatures androidRiscvConfig androidNdkEnv
      = .error "Unsupported Android architecture: riscv64-linux-android" := rfl

/-- Claim C8 (counterexample): the claim that environment signals are
never re-read mid-resolution is false: with the gwp-asan feature on,
two runs over the identical constructed descriptor and feature set
resolve different define sets when the ambient environment changes
after construction. -/
theorem midresolution_env_reread_cx :
    platformDefines .cmake gwpFeatures gwpConfig emptyEnv
      ≠ platformDefines .cmake gwpFeatures gwpConfig gwpPathEnv := by decide

/-- Claim C4 (witness): evaluated on a concrete x86_64 Linux/GNU
resolution. -/
theorem linux_link_plan_witness :
    (∃ pre post, (resolvedOrDefault .build_cc noFeatures linuxEnv linuxHost).directives =
        pre ++ [Directive.linkArg "-Wl,--whole-archive",
                Directive.linkLib ("static="
                  ++ (resolvedOrDefault .build_cc noFeatures linuxEnv linuxHost).config.target_lib),
                Directive.linkArg "-Wl,--no-whole-archive"] ++ post)
  ∧ (resolvedOrDefault .build_cc noFeatures linuxEnv linuxHost).directives.count
      (Directive.linkLib "atomic") = 1 :=
  linux_link_plan .build_cc noFeatures linuxEnv linuxHost
    (resolvedOrDefault .build_cc noFeatures linuxEnv linuxHost)
    rfl (by decide) (by decide) (by decide)

/-- Claim C5 (witness): evaluated on a concrete Windows/MSVC
resolution. -/
theorem msvc_link_plan_witness :
    (Directive.linkLib "pthread"
        ∉ (resolvedOrDefault .cmake noFeatures winMsvcEnv linuxHost).directives
      ∧ Directive.linkLib "dl"
        ∉ (resolvedOrDefault .cmake noFeatures winMsvcEnv linuxHost).directives)
  ∧ configure_linking noFeatures (resolvedOrDefault .cmake noFeatures winMsvcEnv linuxHost).config linuxHost =
      (if (resolvedOrDefault .cmake noFeatures winMsvcEnv linuxHost).config.features.win8compat
       then [] else [Directive.linkLib "mincore"])
        ++ [Directive.linkLib "kernel32", Directive.linkLib "user32",
            Directive.linkLib "advapi32", Directive.linkLib "ws2_32",
            Directive.linkLib "userenv", Directive.linkLib "bcrypt"]
        ++ [Directive.linkLib
              (if (resolvedOrDefault .cmake noFeatures winMsvcEnv linuxHost).config.debug
               then "msvcrtd" else "msvcrt")] :=
  msvc_link_plan .cmake noFeatures winMsvcEnv linuxHost
    (resolvedOrDefault .cmake noFeatures winMsvcEnv linuxHost) rfl (by decide)
